import Mathlib

/-!
# Verification of the GDL90 decode/encode library

Shallow embedding of the `gdl90` Rust crate.  Bytes and machine words are
modelled as `Nat` (with explicit `% 2^w` / masking where the source relies on
fixed-width behaviour); signed results are modelled as `Int`; the `f32`
coordinate conversion is modelled over `ℚ` (every value appearing in the
statements below is exactly representable in `f32`, and the conversion factor
`180 / 2^23` as well as the claimed products are exact in `f32`).

Definitions are transcribed from the Rust sources:
  * `src/types/report.rs`    — `Altitude`, `Velocity`, `Cord`, `CallSignType`
  * `src/types/ownship_geometric_altitude.rs` — `Vfom`, `VerticalMetrics`
  * `src/datalink.rs`        — `Gdl90DatalinkMessage`
  * `src/lib.rs`             — `remove_escapes`, `parse_message_bytes`, `Gdl90Message`
  * `src/control.rs`         — control-panel encoders and their checksum
The crate declares `pub mod crc` with a function `gdl90_crc`, but `crc.rs`
itself is not part of the sources; it is modelled from the spec (see
`gdl90_crc` below).
-/

set_option maxRecDepth 100000

namespace GDL90

/-- `u16::swap_bytes` on a 16-bit word (defined for all `Nat` by first taking
each byte through `% 256`, which is the identity on genuine `u16` inputs). -/
def u16swap (x : Nat) : Nat :=
  (x % 256) * 256 + (x / 256 % 256)

/-- `u32::swap_bytes` on a 32-bit word. -/
def u32swap (x : Nat) : Nat :=
  (x % 256) * 2 ^ 24 + (x / 2 ^ 8 % 256) * 2 ^ 16 + (x / 2 ^ 16 % 256) * 2 ^ 8
    + (x / 2 ^ 24 % 256)

/-- Two's-complement reading of a 16-bit word (`as i16` on a `u16`). -/
def toI16 (w : Nat) : Int :=
  if w % 65536 < 32768 then (w % 65536 : Int) else (w % 65536 : Int) - 65536

/-- Wrapping an `Int` into `i16` (release-mode wrapping arithmetic). -/
def i16wrap (x : Int) : Int :=
  if x % 65536 < 32768 then x % 65536 else x % 65536 - 65536

/-! ## Altitude codec (`src/types/report.rs`, `impl Specifier for Altitude`) -/

def GDL90_ALTITUDE_FACTOR : Int := 25
def GDL90_ALTITUDE_OFFSET : Int := -1000

inductive Altitude
  | Valid (v : Int)
  | InvalidOrUnknown
deriving DecidableEq, Repr

/-- `Altitude::from_bytes`: byte-swap the 16-bit field, drop the low nibble
(the 4 spare bits), scale by 25, offset by −1000, and compare the *scaled*
value with `0xFFF`. -/
def Altitude.from_bytes (input : Nat) : Altitude :=
  let swapped : Nat := u16swap input >>> 4
  let factored : Int := (swapped : Int) * GDL90_ALTITUDE_FACTOR
  let value : Int := factored + GDL90_ALTITUDE_OFFSET
  if value = 0xFFF then Altitude.InvalidOrUnknown else Altitude.Valid value

/-- The raw 12-bit altitude field extracted from the 16-bit input, before
any scaling (high 12 bits of the byte-swapped word). -/
def altitudeRawField (input : Nat) : Nat := u16swap input >>> 4

/-! ## Velocity codec (`src/types/report.rs`, `impl Specifier for Velocity`) -/

def GDL90_HORZ_VELOCITY_FACTOR : Nat := 1
def GDL90_VERT_VELOCITY_FACTOR : Int := 64

inductive VelocityType
  | Horizontal (v : Nat)
  | Vertical (v : Int)
  | Unavailable
deriving DecidableEq, Repr

structure Velocity where
  h_vel : VelocityType
  v_vel : VelocityType
deriving DecidableEq, Repr

/-- `Velocity::from_bytes`: byte-swap the 24-bit input, split into the high
12 bits (horizontal) and low 12 bits (vertical), with sentinel handling. -/
def Velocity.from_bytes (input : Nat) : Velocity :=
  let input' : Nat := u32swap input >>> 8
  let combined_h : Nat := (input' &&& 0xFFF000) >>> 12
  let h_vel : VelocityType :=
    if combined_h = 0xFFF then VelocityType.Unavailable
    else VelocityType.Horizontal (combined_h * GDL90_HORZ_VELOCITY_FACTOR)
  let combined_v : Int := ((input' &&& 0x000FFF : Nat) : Int)
  let v_vel : VelocityType :=
    if combined_v = 0x800 then VelocityType.Unavailable
    else if (0x1FF ≤ combined_v ∧ combined_v ≤ 0x7FF)
        ∨ (0x801 ≤ combined_v ∧ combined_v ≤ 0xE01) then
      VelocityType.Unavailable
    else if combined_v > 2047 then
      VelocityType.Vertical ((combined_v - 4096) * GDL90_VERT_VELOCITY_FACTOR)
    else
      VelocityType.Vertical (combined_v * GDL90_VERT_VELOCITY_FACTOR)
  { h_vel := h_vel, v_vel := v_vel }

/-! ## Coordinate codec (`src/types/report.rs`, `impl Specifier for Cord`)

The Rust code produces an `f32`; it is modelled exactly over `ℚ`
(`value | !0xFFFFFF` on a 24-bit value is `value - 2^24`). -/

def Cord.from_bytes (input : Nat) : ℚ :=
  let combined : Nat := u32swap (input % 0x1000000) >>> 8
  let value : Int :=
    if combined &&& 0x800000 ≠ 0 then (combined : Int) - 0x1000000 else (combined : Int)
  (value : ℚ) * (180 / 2 ^ 23)

/-! ## Call-sign codec (`src/types/report.rs`, `impl Specifier for CallSignType`)

`CallSignType::from_bytes` runs `std::str::from_utf8` over the eight
little-endian bytes of its `u64` input, falls back to `"invalid_call_sign"`
on invalid UTF-8, and applies `str::trim` (which removes *leading and
trailing* Unicode whitespace).  Strings are modelled as lists of Unicode
code points. -/

/-- The eight little-endian bytes of a `u64` (`u64::to_le_bytes`). -/
def u64ToLeBytes (x : Nat) : List Nat :=
  [x % 256, x / 2 ^ 8 % 256, x / 2 ^ 16 % 256, x / 2 ^ 24 % 256,
   x / 2 ^ 32 % 256, x / 2 ^ 40 % 256, x / 2 ^ 48 % 256, x / 2 ^ 56 % 256]

/-- A UTF-8 continuation byte. -/
def utf8Cont (b : Nat) : Bool := 0x80 ≤ b && b ≤ 0xBF

/-- Strict UTF-8 decoding as performed by Rust's `std::str::from_utf8`
(RFC 3629: overlong encodings, surrogates and values above `U+10FFFF` are
rejected).  Returns the decoded code points, or `none` on invalid input. -/
def utf8Decode : List Nat → Option (List Nat)
  | [] => some []
  | b :: rest =>
    if b ≤ 0x7F then
      (utf8Decode rest).map (b :: ·)
    else if 0xC2 ≤ b && b ≤ 0xDF then
      match rest with
      | c1 :: rest1 =>
        if utf8Cont c1 then
          (utf8Decode rest1).map (((b - 0xC0) * 64 + (c1 - 0x80)) :: ·)
        else none
      | [] => none
    else if 0xE0 ≤ b && b ≤ 0xEF then
      match rest with
      | c1 :: c2 :: rest2 =>
        if utf8Cont c1 && utf8Cont c2
            && (b != 0xE0 || 0xA0 ≤ c1) && (b != 0xED || c1 ≤ 0x9F) then
          (utf8Decode rest2).map
            (((b - 0xE0) * 4096 + (c1 - 0x80) * 64 + (c2 - 0x80)) :: ·)
        else none
      | _ => none
    else if 0xF0 ≤ b && b ≤ 0xF4 then
      match rest with
      | c1 :: c2 :: c3 :: rest3 =>
        if utf8Cont c1 && utf8Cont c2 && utf8Cont c3
            && (b != 0xF0 || 0x90 ≤ c1) && (b != 0xF4 || c1 ≤ 0x8F) then
          (utf8Decode rest3).map
            (((b - 0xF0) * 262144 + (c1 - 0x80) * 4096 + (c2 - 0x80) * 64
              + (c3 - 0x80)) :: ·)
        else none
      | _ => none
    else none

/-- Rust's `char::is_whitespace` (the Unicode `White_Space` property). -/
def rustIsWhitespace (c : Nat) : Bool :=
  (0x09 ≤ c && c ≤ 0x0D) || c = 0x20 || c = 0x85 || c = 0xA0 || c = 0x1680
    || (0x2000 ≤ c && c ≤ 0x200A) || c = 0x2028 || c = 0x2029 || c = 0x202F
    || c = 0x205F || c = 0x3000

/-- Rust's `str::trim`: drop leading and trailing whitespace. -/
def rustTrim (cps : List Nat) : List Nat :=
  ((cps.dropWhile rustIsWhitespace).reverse.dropWhile rustIsWhitespace).reverse

/-- The fallback string `"invalid_call_sign"`, as code points. -/
def invalidCallSign : List Nat := "invalid_call_sign".data.map Char.toNat

/-- `CallSignType::from_bytes` (the `tail_number` string it produces). -/
def CallSignType.from_bytes (input : Nat) : List Nat :=
  match utf8Decode (u64ToLeBytes input) with
  | some cps => rustTrim cps
  | none => rustTrim invalidCallSign

/-! ## Spec-modelled CRC engine

Modelled from the spec: the crate declares `pub mod crc` and the frame
decoder calls `crc::gdl90_crc`, but the file `crc.rs` is missing from the
sources.  Per spec §4.1 this is "the GDL90 table-driven CRC-16
(CRC-CCITT-class polynomial, zero initial register, 256-entry precomputed
table, most-significant-byte-first internal accumulation)", i.e. polynomial
`0x1021`, table entry `i` obtained from `i <<< 8` by eight conditional
shift/xor steps, and accumulation `crc = table[crc >> 8] ^ (crc << 8) ^ b`. -/
def crcTableEntry (i : Nat) : Nat :=
  (List.range 8).foldl
    (fun crc _ =>
      if crc &&& 0x8000 ≠ 0 then ((crc <<< 1) ^^^ 0x1021) &&& 0xFFFF
      else (crc <<< 1) &&& 0xFFFF)
    ((i <<< 8) &&& 0xFFFF)

/-- Modelled from the spec (§4.1): the missing `crc::gdl90_crc`. -/
def gdl90_crc (data : List Nat) : Nat :=
  data.foldl
    (fun crc b =>
      (crcTableEntry (crc >>> 8) ^^^ ((crc <<< 8) &&& 0xFFFF) ^^^ (b % 256)) &&& 0xFFFF)
    0

/-! ## Vertical metrics (`src/types/ownship_geometric_altitude.rs`) -/

inductive Vfom
  | Available (v : Nat)
  | Unavailable
deriving DecidableEq, Repr

/-- `Vfom::from_bytes`. -/
def Vfom.from_bytes (input : Nat) : Vfom :=
  let masked := input &&& 0x7FFF
  if masked = 0x7FFF then Vfom.Unavailable else Vfom.Available masked

structure VerticalMetrics where
  vertical_figure_of_merit : Vfom
  vertical_warning_indicator : Bool
deriving DecidableEq, Repr

/-- Reading a `VerticalMetrics` bitfield from its two little-endian bytes:
bits 0–14 are the VFOM, bit 15 the warning indicator. -/
def VerticalMetrics.read (v1 v2 : Nat) : VerticalMetrics :=
  let w := (v1 % 256) + 256 * (v2 % 256)
  { vertical_figure_of_merit := Vfom.from_bytes (w &&& 0x7FFF)
    vertical_warning_indicator := w &&& 0x8000 ≠ 0 }

/-! ## Datalink message dispatch (`src/datalink.rs`)

`binrw`'s derived reader tries the variants in declaration order from the
start of the body buffer and keeps the first that parses; a variant fails
when its magic byte does not match or the buffer is too short for its
fields.  The trailing unit variant `Unknown` always succeeds. -/

def GDL90_GEO_ALTITUDE_FACTOR : Int := 5

inductive Gdl90DatalinkMessage
  | Heartbeat (status_byte_1 status_byte_2 : Nat) (uat_timestamp : Nat) (message_counts : Nat)
  | Initialization (configuration_byte_1 configuration_byte_2 : Nat)
  | UplinkData (time_of_reception : Nat) (uat_specific_header : Nat) (payload : List Nat)
  | HeightAboveTerrain (hat : Nat)
  | OwnshipReport (report : List Nat)
  | TrafficReport (report : List Nat)
  | OwnshipGeoometricAltitude (ownship_geo_altitude : Int) (vertical_metrics : VerticalMetrics)
  | BasicReport
  | LongReport
  | Unknown
deriving DecidableEq, Repr

/-- The nine message-ID bytes with a dedicated variant. -/
def knownIds : List Nat := [0x00, 0x02, 0x07, 0x09, 0x0A, 0x0B, 0x14, 0x1E, 0x1F]

/-- `Gdl90DatalinkMessage`'s derived reader over the body buffer `d`
(message-ID byte followed by the data bytes). -/
def Gdl90DatalinkMessage.read (d : List Nat) : Gdl90DatalinkMessage :=
  if d.head? = some 0x00 ∧ 7 ≤ d.length then
    Gdl90DatalinkMessage.Heartbeat (d.getD 1 0) (d.getD 2 0)
      (d.getD 3 0 + 256 * d.getD 4 0) (d.getD 5 0 + 256 * d.getD 6 0)
  else if d.head? = some 0x02 ∧ 3 ≤ d.length then
    Gdl90DatalinkMessage.Initialization (d.getD 1 0) (d.getD 2 0)
  else if d.head? = some 0x07 ∧ 429 ≤ d.length then
    Gdl90DatalinkMessage.UplinkData
      (d.getD 1 0 + 256 * d.getD 2 0 + 65536 * d.getD 3 0) (d.getD 4 0)
      ((d.drop 5).take 424)
  else if d.head? = some 0x09 ∧ 3 ≤ d.length then
    Gdl90DatalinkMessage.HeightAboveTerrain (d.getD 1 0 + 256 * d.getD 2 0)
  else if d.head? = some 0x0A ∧ 28 ≤ d.length then
    Gdl90DatalinkMessage.OwnshipReport ((d.drop 1).take 27)
  else if d.head? = some 0x14 ∧ 28 ≤ d.length then
    Gdl90DatalinkMessage.TrafficReport ((d.drop 1).take 27)
  else if d.head? = some 0x0B ∧ 5 ≤ d.length then
    Gdl90DatalinkMessage.OwnshipGeoometricAltitude
      (i16wrap (toI16 (d.getD 1 0 + 256 * d.getD 2 0) * GDL90_GEO_ALTITUDE_FACTOR))
      (VerticalMetrics.read (d.getD 3 0) (d.getD 4 0))
  else if d.head? = some 0x1E then Gdl90DatalinkMessage.BasicReport
  else if d.head? = some 0x1F then Gdl90DatalinkMessage.LongReport
  else Gdl90DatalinkMessage.Unknown

/-! ## Frame codec (`src/lib.rs`) -/

def GDL90_ESCAPEBYTE : Nat := 0x7D
def GDL90_MAGIC : Nat := 0x7E

/-- `remove_escapes`: drop each `0x7D` and XOR the following byte with
`0x20`; a trailing `0x7D` with no following byte is silently dropped. -/
def remove_escapes : List Nat → List Nat
  | [] => []
  | [b] => if b = GDL90_ESCAPEBYTE then [] else [b]
  | b :: c :: rest =>
    if b = GDL90_ESCAPEBYTE then (c ^^^ 0x20) :: remove_escapes rest
    else b :: remove_escapes (c :: rest)

structure Gdl90Message where
  message_data : Gdl90DatalinkMessage
  frame_check_seq : Nat
deriving DecidableEq, Repr

/-- `until_exclusive`'s scan: the number of bytes strictly before the first
`0x7E`, or `none` when the stream ends first (an `UnexpectedEof` error). -/
def scanToMagic : List Nat → Option Nat
  | [] => none
  | b :: rest =>
    if b = GDL90_MAGIC then some 0 else (scanToMagic rest).map (· + 1)

/-- The deframing part of `Gdl90Message::read` (`magic = 0x7E`, then
`parse_message_bytes`, then the `u16` frame-check-sequence field):
  * fail unless the first byte is `0x7E`;
  * `until_exclusive` scans for the next `0x7E` (EOF before one is an error);
  * the scanned span minus its last two bytes is unescaped into the body;
  * the reader seeks back 3 bytes (an error when the span is empty) and the
    frame-check sequence is re-read *raw* as a little-endian `u16`.
Returns `(body, frame_check_seq)`. -/
def deframe (stream : List Nat) : Option (List Nat × Nat) :=
  match stream with
  | [] => none
  | b :: rest =>
    if b = GDL90_MAGIC then
      match scanToMagic rest with
      | none => none
      | some n =>
        if n = 0 then none
        else
          some (remove_escapes (rest.take (n - 2)),
                stream.getD (n - 1) 0 + 256 * stream.getD n 0)
    else none

/-- `read_raw` / `Gdl90Message::read`: deframe, decode the body, and check
the frame-check sequence against the CRC of the body (the `br(assert ...)`
on `frame_check_seq`); a mismatch is a decode error. -/
def read_raw (stream : List Nat) : Option Gdl90Message :=
  match deframe stream with
  | none => none
  | some (data, fcs) =>
    if fcs = gdl90_crc data then
      some { message_data := Gdl90DatalinkMessage.read data, frame_check_seq := fcs }
    else none

/-! ## Control panel encoder (`src/control.rs`)

The encoders write `prefix ++ data` through a `Checksum` stream that keeps a
`Wrapping<u8>` sum of every byte written so far; the checksum field is
rendered by `format!("{:02X}", sum)` at the point it is serialized (after
the last data byte), followed by a carriage return.  Output strings are
modelled as byte lists. -/

/-- One uppercase hexadecimal digit (`{:X}` formatting of a nibble). -/
def hexDigitChar (n : Nat) : Nat := if n < 10 then 48 + n else 55 + n

/-- `Checksum::check`: the two ASCII bytes of `format!("{:02X}", sum)` for
an 8-bit sum. -/
def checksumBytes (sum : Nat) : List Nat :=
  [hexDigitChar (sum % 256 / 16), hexDigitChar (sum % 16)]

/-- The `Wrapping<u8>` sum accumulated by the `Checksum` writer. -/
def sum8 (l : List Nat) : Nat := l.foldl (fun a b => (a + b) % 256) 0

/-- `u16_to_four_digit_ascii`: `format!("{:04}", x)` truncated to its first
four characters. -/
def u16_to_four_digit_ascii (x : Nat) : List Nat :=
  let s := (Nat.toDigits 10 x).map Char.toNat
  (List.replicate (4 - s.length) 48 ++ s).take 4

/-- `str_to_eight_digit_ascii`: the first eight bytes of the string, padded
to eight bytes with ASCII spaces. -/
def str_to_eight_digit_ascii (x : List Nat) : List Nat :=
  x.take 8 ++ List.replicate (8 - x.length) 0x20

inductive ModeField | StandBy | ModeA | ModeC
deriving DecidableEq, Repr

def ModeField.toByte : ModeField → Nat
  | .StandBy => 0x4F
  | .ModeA => 0x41
  | .ModeC => 0x43

inductive IdentField | Enabled | Inactive
deriving DecidableEq, Repr

def IdentField.toByte : IdentField → Nat
  | .Enabled => 0x49
  | .Inactive => 0x2D

inductive HealthyField | NotHealthy | Healthy
deriving DecidableEq, Repr

def HealthyField.toByte : HealthyField → Nat
  | .NotHealthy => 48
  | .Healthy => 49

inductive EmergencyField | None | General | Medical | Fuel | Com | Hijack | Downed
deriving DecidableEq, Repr

def EmergencyField.toByte : EmergencyField → Nat
  | .None => 48
  | .General => 49
  | .Medical => 50
  | .Fuel => 51
  | .Com => 52
  | .Hijack => 53
  | .Downed => 54

/-- The bytes written before the checksum field of a `^CS` message:
`b"^CS "` followed by the eight call-sign bytes. -/
def callSignBody (call_sign : List Nat) : List Nat :=
  [0x5E, 0x43, 0x53, 0x20] ++ str_to_eight_digit_ascii call_sign

/-- `CallSignMessage::to_string_message`. -/
def CallSignMessage.to_string_message (call_sign : List Nat) : List Nat :=
  callSignBody call_sign ++ checksumBytes (sum8 (callSignBody call_sign)) ++ [13]

/-- The bytes written before the checksum field of a `^MD` message. -/
def operationModeBody (mode : ModeField) (ident : IdentField) (squawk : Nat)
    (emergency : EmergencyField) (healthy : HealthyField) : List Nat :=
  [0x5E, 0x4D, 0x44, 0x20] ++ [mode.toByte] ++ [0x2C] ++ [ident.toByte] ++ [0x2C]
    ++ u16_to_four_digit_ascii squawk ++ [emergency.toByte] ++ [healthy.toByte]

/-- `OperationModeMessage::to_string_message`. -/
def OperationModeMessage.to_string_message (mode : ModeField) (ident : IdentField)
    (squawk : Nat) (emergency : EmergencyField) (healthy : HealthyField) : List Nat :=
  operationModeBody mode ident squawk emergency healthy
    ++ checksumBytes (sum8 (operationModeBody mode ident squawk emergency healthy)) ++ [13]

/-- The bytes written before the checksum field of a `^VC` message. -/
def vfrCodeBody (vfr_code : Nat) : List Nat :=
  [0x5E, 0x56, 0x43, 0x20] ++ u16_to_four_digit_ascii vfr_code

/-- `VfrCodeMessage::to_string_message`. -/
def VfrCodeMessage.to_string_message (vfr_code : Nat) : List Nat :=
  vfrCodeBody vfr_code ++ checksumBytes (sum8 (vfrCodeBody vfr_code)) ++ [13]

/-- The value of one ASCII uppercase hexadecimal digit. -/
def hexVal (d : Nat) : Nat := if d ≤ 57 then d - 48 else d - 55

/-- A character that `{:02X}` can produce. -/
def isUpperHexDigit (c : Nat) : Prop := (48 ≤ c ∧ c ≤ 57) ∨ (65 ≤ c ∧ c ≤ 70)

instance (c : Nat) : Decidable (isUpperHexDigit c) := by
  unfold isUpperHexDigit; infer_instance

/-- Re-parsing a produced control-panel string from its tail: expect a final
carriage return preceded by two hexadecimal digits, and return the checksum
field's value together with the recomputed 8-bit sum of the preceding bytes. -/
def reparseChecksum (out : List Nat) : Option (Nat × Nat) :=
  match out.reverse with
  | cr :: d2 :: d1 :: rest =>
    if cr = 13 ∧ isUpperHexDigit d1 ∧ isUpperHexDigit d2 then
      some (hexVal d1 * 16 + hexVal d2, sum8 rest.reverse)
    else none
  | _ => none

/-! ## Spec-side field views used by the velocity claim -/

/-- The byte-reversed 24-bit velocity word. -/
def velocityWord (input : Nat) : Nat := u32swap input >>> 8

/-- The high 12 bits of the velocity word: the raw horizontal field. -/
def horizontalRawField (input : Nat) : Nat := velocityWord input >>> 12

/-- The low 12 bits of the velocity word: the raw vertical field. -/
def verticalRawField (input : Nat) : Nat := velocityWord input % 4096

/-- Two's-complement reading of a 12-bit value. -/
def twosComplement12 (v : Nat) : Int :=
  if v < 2048 then (v : Int) else (v : Int) - 4096

/-! # Sanity checks against the repository's own test vectors -/

/-- The repository's `callsign_works` test — the `u64` whose little-endian
bytes spell `"N825V   "` decodes to `"N825V"`. -/
example : CallSignType.from_bytes 0x202020563532384E = "N825V".data.map Char.toNat := by decide

/-- The CRC model reproduces the frame-check sequence `0x8bb3` of the
repository's valid heartbeat test frame. -/
example : gdl90_crc [0x00, 0x81, 0x41, 0xDB, 0xD0, 0x08, 0x02] = 0x8bb3 := by decide

/-- The CRC model reproduces the frame-check sequence of the repository's
ownship-geometric-altitude test frame. -/
example : gdl90_crc [11, 0, 202, 0, 12] = 251 + 256 * 136 := by decide

/-- The repository's `msg_heartbeat` test frame decodes to a heartbeat with
frame-check sequence `0x8bb3`. -/
example :
    read_raw [0x7E, 0x00, 0x81, 0x41, 0xDB, 0xD0, 0x08, 0x02, 0xB3, 0x8B, 0x7E]
      = some { message_data := Gdl90DatalinkMessage.Heartbeat 0x81 0x41 0xD0DB 0x0208
               frame_check_seq := 0x8bb3 } := by decide

/-- The repository's `ownship_geometric_altitude` test frame decodes
successfully. -/
example :
    (read_raw [126, 11, 0, 202, 0, 12, 251, 136, 126]).isSome = true := by decide

/-- The repository's `call_sign` test (`"GARMIN"` encodes to
`"^CS GARMIN  12\r"`). -/
example :
    CallSignMessage.to_string_message ("GARMIN".data.map Char.toNat)
      = "^CS GARMIN  12\r".data.map Char.toNat := by decide

/-- The repository's `operation_mode` test. -/
example :
    OperationModeMessage.to_string_message .ModeA .Enabled 2345 .None .Healthy
      = "^MD A,I,23450120\r".data.map Char.toNat := by decide

/-- The repository's `vfr_code` test (`1200` encodes to `"^VC 1200DA\r"`). -/
example :
    VfrCodeMessage.to_string_message 1200 = "^VC 1200DA\r".data.map Char.toNat := by decide

/-! # Helper lemmas -/

lemma and_hi_shift (x : Nat) : (x &&& 0xFFF000) >>> 12 = (x >>> 12) &&& 0xFFF := by
  apply Nat.eq_of_testBit_eq
  intro i
  simp only [Nat.testBit_shiftRight, Nat.testBit_and]
  congr 1
  rcases Nat.lt_or_ge i 12 with hi | hi
  · interval_cases i <;> rfl
  · rw [Nat.testBit_lt_two_pow (lt_of_lt_of_le (show (0xFFF : Nat) < 2 ^ 12 by norm_num)
          (Nat.pow_le_pow_right (by norm_num) hi)),
        Nat.testBit_lt_two_pow (lt_of_lt_of_le (show (0xFFF000 : Nat) < 2 ^ 24 by norm_num)
          (Nat.pow_le_pow_right (by norm_num) (by omega)))]

lemma and_0xFFF (x : Nat) : x &&& 0xFFF = x % 4096 := by
  have h := Nat.and_pow_two_sub_one_eq_mod x 12
  norm_num at h
  exact h

lemma u32swap_lt (x : Nat) : u32swap x < 2 ^ 32 := by
  unfold u32swap
  have h1 : x % 256 < 256 := Nat.mod_lt _ (by norm_num)
  have h2 : x / 2 ^ 8 % 256 < 256 := Nat.mod_lt _ (by norm_num)
  have h3 : x / 2 ^ 16 % 256 < 256 := Nat.mod_lt _ (by norm_num)
  have h4 : x / 2 ^ 24 % 256 < 256 := Nat.mod_lt _ (by norm_num)
  norm_num at h1 h2 h3 h4 ⊢
  omega

lemma velocityWord_lt (input : Nat) : velocityWord input < 2 ^ 24 := by
  have h := u32swap_lt input
  unfold velocityWord
  rw [Nat.shiftRight_eq_div_pow]
  norm_num at h ⊢
  omega

/-! # Claim theorems -/

/-- **C1** (code-bug evidence): the 16-bit altitude field `0xF0FF`, whose raw
12-bit altitude value (extracted before any scaling) is the sentinel `0xFFF`,
does **not** decode to `InvalidOrUnknown` but to `Valid 101375`; in fact no
input at all decodes to `InvalidOrUnknown`, because the codec compares the
already-scaled value (always ≡ −1000 mod 25) with the sentinel constant
`0xFFF = 4095`, which is unreachable. -/
theorem c1_altitude_sentinel_unreachable :
    altitudeRawField 0xF0FF = 0xFFF ∧
    Altitude.from_bytes 0xF0FF = Altitude.Valid 101375 ∧
    ∀ input : Nat, Altitude.from_bytes input ≠ Altitude.InvalidOrUnknown := by
  refine ⟨by decide, by decide, fun input => ?_⟩
  simp only [Altitude.from_bytes, GDL90_ALTITUDE_FACTOR, GDL90_ALTITUDE_OFFSET]
  split
  · next h => exfalso; omega
  · exact fun h => Altitude.noConfusion h

/-- **C8 counterexample**: the claim's example is wrong on the code: the
16-bit altitude field `0xC00D` has raw 12-bit value `0x0DC`, and it decodes
to `Valid 4500` (= 0x0DC·25 − 1000), not to `Valid 2500`. -/
theorem c8_raw_0DC_gives_4500 :
    altitudeRawField 0xC00D = 0x0DC ∧
    Altitude.from_bytes 0xC00D = Altitude.Valid 4500 ∧
    Altitude.from_bytes 0xC00D ≠ Altitude.Valid 2500 := by decide

/-- **C8** (amended): for every 16-bit altitude-field input whose raw 12-bit
value `r` is not the sentinel, the codec returns `Valid (25·r − 1000)`; the
raw value `0x08C` (as in the repository's `ownship_1` test) yields
`Valid 2500`. -/
theorem c8_altitude_scaling :
    (∀ input : Nat, altitudeRawField input ≠ 0xFFF →
      Altitude.from_bytes input
        = Altitude.Valid (25 * (altitudeRawField input : Int) - 1000)) ∧
    altitudeRawField 0xC008 = 0x08C ∧
    Altitude.from_bytes 0xC008 = Altitude.Valid 2500 := by
  refine ⟨fun input _ => ?_, by decide, by decide⟩
  simp only [Altitude.from_bytes, altitudeRawField, GDL90_ALTITUDE_FACTOR,
    GDL90_ALTITUDE_OFFSET]
  split
  · next h => exfalso; omega
  · next h => simp only [Altitude.Valid.injEq]; omega

/-- Witness for `c8_altitude_scaling` at the concrete field `0xC008`. -/
theorem c8_altitude_scaling_witness :
    altitudeRawField 0xC008 ≠ 0xFFF ∧
    Altitude.from_bytes 0xC008
      = Altitude.Valid (25 * (altitudeRawField 0xC008 : Int) - 1000) :=
  ⟨by decide, c8_altitude_scaling.1 0xC008 (by decide)⟩

/-- **C4**: the coordinate codec reads its 24-bit input as a two's-complement
semicircle fraction and yields degrees in `[-180, 180)`; raw `0x000020`
gives 45°, `0x0000E0` gives −45°, `0x000080` gives −180°, `0x000000`
gives 0°. -/
theorem c4_cord_semicircle :
    (∀ input : Nat, -180 ≤ Cord.from_bytes input ∧ Cord.from_bytes input < 180) ∧
    Cord.from_bytes 0x000020 = 45 ∧
    Cord.from_bytes 0x0000E0 = -45 ∧
    Cord.from_bytes 0x000080 = -180 ∧
    Cord.from_bytes 0x000000 = 0 := by
  have e20 : Cord.from_bytes 0x000020 = 45 := by
    have h1 : u32swap (0x000020 % 0x1000000) >>> 8 = 2097152 := by rfl
    have h2 : (2097152 : Nat) &&& 0x800000 = 0 := by rfl
    simp only [Cord.from_bytes, h1, h2]
    norm_num
  have eE0 : Cord.from_bytes 0x0000E0 = -45 := by
    have h1 : u32swap (0x0000E0 % 0x1000000) >>> 8 = 14680064 := by rfl
    have h2 : (14680064 : Nat) &&& 0x800000 = 8388608 := by rfl
    simp only [Cord.from_bytes, h1, h2]
    norm_num
  have e80 : Cord.from_bytes 0x000080 = -180 := by
    have h1 : u32swap (0x000080 % 0x1000000) >>> 8 = 8388608 := by rfl
    have h2 : (8388608 : Nat) &&& 0x800000 = 8388608 := by rfl
    simp only [Cord.from_bytes, h1, h2]
    norm_num
  have e00 : Cord.from_bytes 0x000000 = 0 := by
    have h1 : u32swap (0x000000 % 0x1000000) >>> 8 = 0 := by rfl
    have h2 : (0 : Nat) &&& 0x800000 = 0 := by rfl
    simp only [Cord.from_bytes, h1, h2]
    norm_num
  refine ⟨fun input => ?_, e20, eE0, e80, e00⟩
  simp only [Cord.from_bytes]
  have hlt : u32swap (input % 0x1000000) >>> 8 < 2 ^ 24 := by
    have h := u32swap_lt (input % 0x1000000)
    rw [Nat.shiftRight_eq_div_pow]
    norm_num at h ⊢
    omega
  set c := u32swap (input % 0x1000000) >>> 8 with hc
  have hbit : c &&& 0x800000 = (c / 2 ^ 23 % 2) * 2 ^ 23 := by
    have h := Nat.and_two_pow c 23
    rw [Nat.testBit_to_div_mod] at h
    rcases Nat.mod_two_eq_zero_or_one (c / 2 ^ 23) with h2 | h2 <;>
      · rw [h2] at h ⊢
        simpa [show (0x800000 : Nat) = 2 ^ 23 by norm_num] using h
  have hv : -8388608 ≤ (if c &&& 0x800000 ≠ 0 then (c : Int) - 0x1000000 else (c : Int)) ∧
      (if c &&& 0x800000 ≠ 0 then (c : Int) - 0x1000000 else (c : Int)) < 8388608 := by
    split
    · next h => rw [hbit] at h; norm_num at hlt ⊢; omega
    · next h => rw [hbit] at h; norm_num at hlt h ⊢; omega
  set v : Int := if c &&& 0x800000 ≠ 0 then (c : Int) - 0x1000000 else (c : Int) with hvdef
  have h1 : (-8388608 : ℚ) ≤ (v : ℚ) := by exact_mod_cast hv.1
  have h2 : (v : ℚ) < 8388608 := by exact_mod_cast hv.2
  constructor
  · nlinarith
  · nlinarith

/-- **C3**: the velocity codec splits its (byte-reversed) 24-bit input into
the 12-bit horizontal field (unit resolution, all-ones `0xFFF` meaning
unavailable) and the 12-bit two's-complement vertical field (scaled by 64,
with raw `0x800` and the two reserved ranges `0x1FF..0x7FF` and
`0x801..0xE01` meaning unavailable); raw `0x01b007` gives horizontal 123 and
vertical +64, and raw `0x000800` (vertical field `0x800`) gives vertical
unavailable. -/
theorem c3_velocity_split :
    (∀ input : Nat, input < 2 ^ 24 →
      Velocity.from_bytes input =
        { h_vel :=
            if horizontalRawField input = 0xFFF then VelocityType.Unavailable
            else VelocityType.Horizontal (horizontalRawField input)
          v_vel :=
            if verticalRawField input = 0x800
                ∨ (0x1FF ≤ verticalRawField input ∧ verticalRawField input ≤ 0x7FF)
                ∨ (0x801 ≤ verticalRawField input ∧ verticalRawField input ≤ 0xE01)
            then VelocityType.Unavailable
            else VelocityType.Vertical (twosComplement12 (verticalRawField input) * 64) }) ∧
    Velocity.from_bytes 0x01b007
      = { h_vel := VelocityType.Horizontal 123, v_vel := VelocityType.Vertical 64 } ∧
    (Velocity.from_bytes 0x000800).v_vel = VelocityType.Unavailable ∧
    verticalRawField 0x000800 = 0x800 := by
  refine ⟨fun input hlt => ?_, by decide, by decide, by decide⟩
  have hword := velocityWord_lt input
  have hH : (u32swap input >>> 8 &&& 0xFFF000) >>> 12 = horizontalRawField input := by
    rw [and_hi_shift, and_0xFFF]
    unfold horizontalRawField velocityWord
    apply Nat.mod_eq_of_lt
    unfold velocityWord at hword
    rw [Nat.shiftRight_eq_div_pow] at hword ⊢
    norm_num at hword ⊢
    omega
  have hV : (u32swap input >>> 8 &&& 0xFFF) = verticalRawField input := by
    rw [and_0xFFF]; rfl
  simp only [Velocity.from_bytes, hH, hV, GDL90_HORZ_VELOCITY_FACTOR,
    GDL90_VERT_VELOCITY_FACTOR, Nat.mul_one, Velocity.mk.injEq]
  have hn : verticalRawField input < 4096 := Nat.mod_lt _ (by norm_num)
  set n := verticalRawField input with hndef
  constructor
  · trivial
  · unfold twosComplement12
    split_ifs <;> first | rfl | (exfalso; omega)

/-- Witness for `c3_velocity_split` at the concrete raw input `0x01b007`. -/
theorem c3_velocity_split_witness :
    (0x01b007 : Nat) < 2 ^ 24 ∧
    Velocity.from_bytes 0x01b007 =
      { h_vel :=
          if horizontalRawField 0x01b007 = 0xFFF then VelocityType.Unavailable
          else VelocityType.Horizontal (horizontalRawField 0x01b007)
        v_vel :=
          if verticalRawField 0x01b007 = 0x800
              ∨ (0x1FF ≤ verticalRawField 0x01b007 ∧ verticalRawField 0x01b007 ≤ 0x7FF)
              ∨ (0x801 ≤ verticalRawField 0x01b007 ∧ verticalRawField 0x01b007 ≤ 0xE01)
          then VelocityType.Unavailable
          else VelocityType.Vertical (twosComplement12 (verticalRawField 0x01b007) * 64) } :=
  ⟨by norm_num, c3_velocity_split.1 0x01b007 (by norm_num)⟩

/-! ## Remaining helper lemmas -/

lemma i16wrap_eq_self (x : Int) (h1 : -32768 ≤ x) (h2 : x < 32768) : i16wrap x = x := by
  unfold i16wrap
  omega

lemma read_unknown_of_not_known (id : Nat) (bodyData : List Nat) (hid : id ∉ knownIds) :
    Gdl90DatalinkMessage.read (id :: bodyData) = Gdl90DatalinkMessage.Unknown := by
  simp only [knownIds, List.mem_cons, List.not_mem_nil, or_false, not_or] at hid
  obtain ⟨h0, h2, h7, h9, hA, hB, h14, h1E, h1F⟩ := hid
  simp [Gdl90DatalinkMessage.read, h0, h2, h7, h9, hA, hB, h14, h1E, h1F]

lemma scanToMagic_none (l : List Nat) (h : ∀ b ∈ l, b ≠ GDL90_MAGIC) :
    scanToMagic l = none := by
  induction l with
  | nil => rfl
  | cons a l ih =>
    unfold scanToMagic
    rw [if_neg (h a (List.mem_cons_self a l))]
    rw [ih fun b hb => h b (List.mem_cons_of_mem a hb)]
    rfl

lemma scanToMagic_append (l tail : List Nat) (h : ∀ b ∈ l, b ≠ GDL90_MAGIC) :
    scanToMagic (l ++ GDL90_MAGIC :: tail) = some l.length := by
  induction l with
  | nil => simp [scanToMagic]
  | cons a l ih =>
    rw [List.cons_append]
    simp only [scanToMagic]
    rw [if_neg (h a (List.mem_cons_self a l)),
      ih fun b hb => h b (List.mem_cons_of_mem a hb)]
    simp

lemma getD_append_left {l l' : List Nat} {n : Nat} (h : n < l.length) (d : Nat) :
    (l ++ l').getD n d = l.getD n d := by
  induction l generalizing n with
  | nil => simp at h
  | cons a l ih =>
    cases n with
    | zero => rfl
    | succ n => simpa using ih (by simpa using h)

lemma getD_append_right (l l' : List Nat) (n : Nat) (d : Nat) :
    (l ++ l').getD (l.length + n) d = l'.getD n d := by
  induction l with
  | nil => simp
  | cons a l ih => simpa [Nat.succ_add] using ih

lemma sum8_lt (l : List Nat) : sum8 l < 256 := by
  suffices h : ∀ a : Nat, a < 256 → l.foldl (fun a b => (a + b) % 256) a < 256 by
    exact h 0 (by norm_num)
  induction l with
  | nil => intro a ha; simpa using ha
  | cons x l ih =>
    intro a _
    exact ih ((a + x) % 256) (Nat.mod_lt _ (by norm_num))

lemma hexVal_hexDigitChar (h : Nat) (hh : h < 16) : hexVal (hexDigitChar h) = h := by
  unfold hexVal hexDigitChar
  split_ifs <;> omega

lemma hexDigitChar_isUpperHexDigit (h : Nat) (hh : h < 16) :
    isUpperHexDigit (hexDigitChar h) := by
  unfold isUpperHexDigit hexDigitChar
  split_ifs <;> omega

lemma reparse_of_body (body : List Nat) :
    reparseChecksum (body ++ checksumBytes (sum8 body) ++ [13])
      = some (sum8 body, sum8 body) := by
  have hs : sum8 body < 256 := sum8_lt body
  have hmod : sum8 body % 256 = sum8 body := Nat.mod_eq_of_lt hs
  unfold reparseChecksum checksumBytes
  rw [hmod]
  simp only [List.reverse_append, List.reverse_cons, List.reverse_nil, List.nil_append,
    List.cons_append, List.append_assoc]
  rw [if_pos ⟨by trivial, hexDigitChar_isUpperHexDigit _ (by omega),
    hexDigitChar_isUpperHexDigit _ (Nat.mod_lt _ (by norm_num))⟩,
    hexVal_hexDigitChar _ (by omega), hexVal_hexDigitChar _ (Nat.mod_lt _ (by norm_num)),
    List.reverse_reverse]
  simp only [Option.some.injEq, Prod.mk.injEq]
  exact ⟨by omega, by trivial⟩

/-- Evaluating `deframe` on a well-formed single frame: leading delimiter,
escaped body bytes, two raw frame-check-sequence bytes, closing delimiter,
with no delimiter byte occurring inside. -/
lemma deframe_frame (bodyRaw : List Nat) (f1 f2 : Nat)
    (hmag : ∀ b ∈ bodyRaw ++ [f1, f2], b ≠ GDL90_MAGIC) :
    deframe (GDL90_MAGIC :: (bodyRaw ++ [f1, f2, GDL90_MAGIC]))
      = some (remove_escapes bodyRaw, f1 + 256 * f2) := by
  have hn0 : ¬(bodyRaw.length + 2 = 0) := by omega
  have hscan : scanToMagic (bodyRaw ++ [f1, f2, GDL90_MAGIC])
      = some (bodyRaw.length + 2) := by
    have hsplit : bodyRaw ++ [f1, f2, GDL90_MAGIC]
        = (bodyRaw ++ [f1, f2]) ++ GDL90_MAGIC :: [] := by simp
    rw [hsplit, scanToMagic_append _ _ hmag]
    simp
  have htake : List.take (bodyRaw.length + 2 - 2) (bodyRaw ++ [f1, f2, GDL90_MAGIC])
      = bodyRaw := by
    rw [show bodyRaw.length + 2 - 2 = bodyRaw.length by omega]
    rw [show bodyRaw ++ [f1, f2, GDL90_MAGIC] = bodyRaw ++ [f1, f2, GDL90_MAGIC] from rfl]
    exact List.take_left bodyRaw [f1, f2, GDL90_MAGIC]
  have hget1 : (GDL90_MAGIC :: (bodyRaw ++ [f1, f2, GDL90_MAGIC])).getD
      (bodyRaw.length + 2 - 1) 0 = f1 := by
    rw [show bodyRaw.length + 2 - 1 = bodyRaw.length + 1 by omega,
      List.getD_cons_succ]
    simpa using getD_append_right bodyRaw [f1, f2, GDL90_MAGIC] 0 0
  have hget2 : (GDL90_MAGIC :: (bodyRaw ++ [f1, f2, GDL90_MAGIC])).getD
      (bodyRaw.length + 2) 0 = f2 := by
    rw [show bodyRaw.length + 2 = (bodyRaw.length + 1) + 1 by omega,
      List.getD_cons_succ, getD_append_right bodyRaw [f1, f2, GDL90_MAGIC] 1 0]
    rfl
  simp only [deframe, hscan, eq_self_iff_true, if_true, if_neg hn0,
    htake, hget1, hget2]

/-! ## Claim theorems (continued) -/

/-- **C10**: for every `OwnshipGeometricAltitude` body whose raw little-endian
signed 16-bit altitude `a` satisfies `-6553 ≤ a ≤ 6553`, decoding succeeds
and the `ownship_geo_altitude` field is exactly `a * 5` (the wrapping `i16`
multiplication by the factor 5 does not overflow). -/
theorem c10_geo_altitude_no_overflow (a1 a2 v1 v2 : Nat) (rest : List Nat)
    (ha1 : a1 < 256) (ha2 : a2 < 256)
    (hlo : -6553 ≤ toI16 (a1 + 256 * a2)) (hhi : toI16 (a1 + 256 * a2) ≤ 6553) :
    Gdl90DatalinkMessage.read (0x0B :: a1 :: a2 :: v1 :: v2 :: rest)
      = Gdl90DatalinkMessage.OwnshipGeoometricAltitude
          (toI16 (a1 + 256 * a2) * 5) (VerticalMetrics.read v1 v2) := by
  have hwrap : i16wrap (toI16 (a1 + 256 * a2) * GDL90_GEO_ALTITUDE_FACTOR)
      = toI16 (a1 + 256 * a2) * 5 := by
    rw [show GDL90_GEO_ALTITUDE_FACTOR = (5 : Int) from rfl]
    exact i16wrap_eq_self _ (by omega) (by omega)
  simp [Gdl90DatalinkMessage.read, hwrap, List.getD]

/-- Witness for `c10_geo_altitude_no_overflow` at raw altitude 10. -/
theorem c10_geo_altitude_no_overflow_witness :
    (10 : Nat) < 256 ∧ (0 : Nat) < 256 ∧
    -6553 ≤ toI16 (10 + 256 * 0) ∧ toI16 (10 + 256 * 0) ≤ 6553 ∧
    Gdl90DatalinkMessage.read [0x0B, 10, 0, 0xFF, 0xFF]
      = Gdl90DatalinkMessage.OwnshipGeoometricAltitude
          (toI16 (10 + 256 * 0) * 5) (VerticalMetrics.read 0xFF 0xFF) :=
  ⟨by norm_num, by norm_num, by decide, by decide,
    c10_geo_altitude_no_overflow 10 0 0xFF 0xFF [] (by norm_num) (by norm_num)
      (by decide) (by decide)⟩

/-- **C2**: the corrupted heartbeat frame
`7E 00 81 41 DB D0 08 02 FF FF 7E` is rejected, and in general every
successfully decoded frame's transmitted frame-check sequence equals the CRC
of its unescaped message body — a mismatching frame is never accepted. -/
theorem c2_crc_mismatch_rejected :
    read_raw [0x7E, 0x00, 0x81, 0x41, 0xDB, 0xD0, 0x08, 0x02, 0xFF, 0xFF, 0x7E] = none ∧
    ∀ (stream : List Nat) (msg : Gdl90Message), read_raw stream = some msg →
      ∃ body : List Nat, deframe stream = some (body, msg.frame_check_seq) ∧
        msg.frame_check_seq = gdl90_crc body := by
  refine ⟨by decide, fun stream msg h => ?_⟩
  unfold read_raw at h
  cases hd : deframe stream with
  | none => rw [hd] at h; cases h
  | some p =>
    obtain ⟨data, fcs⟩ := p
    rw [hd] at h
    simp only at h
    by_cases hc : fcs = gdl90_crc data
    · rw [if_pos hc] at h
      have hmsg : msg = Gdl90Message.mk (Gdl90DatalinkMessage.read data) fcs :=
        (Option.some.inj h).symm
      subst hmsg
      exact ⟨data, rfl, hc⟩
    · rw [if_neg hc] at h; cases h

/-- Witness for `c2_crc_mismatch_rejected` at the repository's valid
heartbeat frame. -/
theorem c2_crc_mismatch_rejected_witness :
    ∃ body : List Nat,
      deframe [0x7E, 0x00, 0x81, 0x41, 0xDB, 0xD0, 0x08, 0x02, 0xB3, 0x8B, 0x7E]
          = some (body, 0x8bb3) ∧ (0x8bb3 : Nat) = gdl90_crc body :=
  c2_crc_mismatch_rejected.2
    [0x7E, 0x00, 0x81, 0x41, 0xDB, 0xD0, 0x08, 0x02, 0xB3, 0x8B, 0x7E]
    { message_data := Gdl90DatalinkMessage.Heartbeat 0x81 0x41 0xD0DB 0x0208
      frame_check_seq := 0x8bb3 }
    (by decide)

/-- **C7 counterexample**: in the frame `7E FF 7D FF 00 7E` the scanned body
span is `[0xFF, 0x7D]` — it ends in an escape byte with no following byte
within the frame body — yet the unpaired escape is silently dropped and the
frame decodes *successfully* (the CRC over the remaining body `[0xFF]`
matches), instead of failing with a framing error. -/
theorem c7_unpaired_escape_accepted :
    remove_escapes [0xFF, 0x7D] = [0xFF] ∧
    deframe [0x7E, 0xFF, 0x7D, 0xFF, 0x00, 0x7E] = some ([0xFF], 255) ∧
    read_raw [0x7E, 0xFF, 0x7D, 0xFF, 0x00, 0x7E]
      = some { message_data := Gdl90DatalinkMessage.Unknown, frame_check_seq := 255 } := by
  decide

/-- **C7** (amended): when the input stream ends before any closing
delimiter — in particular when it ends mid-escape, with `0x7D` as its last
byte — the frame decode fails (framing error).  (An unpaired escape at the
end of a *closed* frame's span is instead silently dropped, see
`c7_unpaired_escape_accepted`.) -/
theorem c7_eof_mid_escape_fails (rest : List Nat)
    (hnomagic : ∀ b ∈ rest, b ≠ GDL90_MAGIC)
    (hlast : rest.getLast? = some GDL90_ESCAPEBYTE) :
    read_raw (GDL90_MAGIC :: rest) = none := by
  simp [read_raw, deframe, scanToMagic_none rest hnomagic]

/-- Witness for `c7_eof_mid_escape_fails` on the stream `7E 7D`. -/
theorem c7_eof_mid_escape_fails_witness :
    (∀ b ∈ [0x7D], b ≠ GDL90_MAGIC) ∧ ([0x7D] : List Nat).getLast? = some GDL90_ESCAPEBYTE ∧
    read_raw [GDL90_MAGIC, 0x7D] = none :=
  ⟨by decide, by decide, c7_eof_mid_escape_fails [0x7D] (by decide) (by decide)⟩

/-- **C5**: a well-framed, correctly checksummed frame whose message-ID byte
matches none of the known tags decodes successfully to the `Unknown`
variant, with no further body data interpreted and no error. -/
theorem c5_unknown_id_decodes (bodyRaw bodyData : List Nat) (id f1 f2 : Nat)
    (hmag : ∀ b ∈ bodyRaw ++ [f1, f2], b ≠ GDL90_MAGIC)
    (hesc : remove_escapes bodyRaw = id :: bodyData)
    (hid : id ∉ knownIds)
    (hcrc : f1 + 256 * f2 = gdl90_crc (id :: bodyData)) :
    read_raw (GDL90_MAGIC :: (bodyRaw ++ [f1, f2, GDL90_MAGIC]))
      = some { message_data := Gdl90DatalinkMessage.Unknown
               frame_check_seq := gdl90_crc (id :: bodyData) } := by
  have hdf := deframe_frame bodyRaw f1 f2 hmag
  rw [hesc] at hdf
  simp only [read_raw, hdf]
  rw [if_pos hcrc, read_unknown_of_not_known id bodyData hid, hcrc]

/-- Witness for `c5_unknown_id_decodes`: the frame `7E FF FF 00 7E`
(ID `0xFF`, CRC `0x00FF`). -/
theorem c5_unknown_id_decodes_witness :
    (255 : Nat) ∉ knownIds ∧
    read_raw [GDL90_MAGIC, 0xFF, 0xFF, 0x00, GDL90_MAGIC]
      = some { message_data := Gdl90DatalinkMessage.Unknown
               frame_check_seq := gdl90_crc [0xFF] } :=
  ⟨by decide,
    c5_unknown_id_decodes [0xFF] [] 0xFF 0xFF 0x00
      (by decide) (by decide) (by decide) (by decide)⟩

/-- **C6 counterexample**: the 8-byte input `20 20 C3 A9 20 20 20 20`
(`"  é     "`, valid UTF-8 but *not* ASCII) does not produce the fallback
string — the codec only falls back on invalid UTF-8 — and the pure-ASCII
input `20 4E 38 32 35 56 20 20` (`" N825V  "`) loses its *leading* space as
well, so the result is not merely "the string with trailing spaces
removed". -/
theorem c6_not_ascii_no_fallback :
    ((u64ToLeBytes 0x20202020A9C32020).all (fun b => decide (b ≤ 0x7F)) = false) ∧
    CallSignType.from_bytes 0x20202020A9C32020 = [0xE9] ∧
    CallSignType.from_bytes 0x20202020A9C32020 ≠ invalidCallSign ∧
    CallSignType.from_bytes 0x2020563532384E20 = "N825V".data.map Char.toNat ∧
    CallSignType.from_bytes 0x2020563532384E20 ≠ " N825V".data.map Char.toNat := by
  refine ⟨by decide, by decide, by decide, by decide, by decide⟩

/-- **C6** (amended): the call-sign codec interprets its eight raw bytes as
UTF-8 and returns the string trimmed of leading and trailing whitespace
(the bytes spelling `N825V` plus trailing spaces decode to `"N825V"`); for
every 8-byte input that is not valid UTF-8 it returns the fallback string
`"invalid_call_sign"`, never failing the enclosing decode. -/
theorem c6_callsign_utf8_trim :
    (∀ input : Nat, utf8Decode (u64ToLeBytes input) = none →
        CallSignType.from_bytes input = invalidCallSign) ∧
    (∀ (input : Nat) (cps : List Nat), utf8Decode (u64ToLeBytes input) = some cps →
        CallSignType.from_bytes input = rustTrim cps) ∧
    CallSignType.from_bytes 0x202020563532384E = "N825V".data.map Char.toNat := by
  refine ⟨fun input h => ?_, fun input cps h => ?_, by decide⟩
  · unfold CallSignType.from_bytes
    rw [h]
    decide
  · unfold CallSignType.from_bytes
    rw [h]

/-- Witness for `c6_callsign_utf8_trim`: input `0xFF` is invalid UTF-8 and
yields the fallback; the `N825V` input decodes through `rustTrim`. -/
theorem c6_callsign_utf8_trim_witness :
    (utf8Decode (u64ToLeBytes 0xFF) = none ∧
      CallSignType.from_bytes 0xFF = invalidCallSign) ∧
    (utf8Decode (u64ToLeBytes 0x202020563532384E)
        = some ([0x4E, 0x38, 0x32, 0x35, 0x56, 0x20, 0x20, 0x20]) ∧
      CallSignType.from_bytes 0x202020563532384E
        = rustTrim [0x4E, 0x38, 0x32, 0x35, 0x56, 0x20, 0x20, 0x20]) :=
  ⟨⟨by decide, c6_callsign_utf8_trim.1 0xFF (by decide)⟩,
   ⟨by decide, c6_callsign_utf8_trim.2.1 0x202020563532384E _ (by decide)⟩⟩

/-- **C9**: every control-panel command's output ends with the two-character
uppercase zero-padded hexadecimal checksum followed by a carriage return,
the checksum field equals the 8-bit wraparound additive sum of every byte
from the prefix through the last data byte inclusive, and re-parsing the
produced string's checksum field always matches the recomputed sum. -/
theorem c9_control_checksum_roundtrip :
    (∀ s : Nat, ∃ d1 d2 : Nat, checksumBytes s = [d1, d2]
        ∧ isUpperHexDigit d1 ∧ isUpperHexDigit d2) ∧
    (∀ cs : List Nat, reparseChecksum (CallSignMessage.to_string_message cs)
        = some (sum8 (callSignBody cs), sum8 (callSignBody cs))) ∧
    (∀ (mode : ModeField) (ident : IdentField) (squawk : Nat)
        (emergency : EmergencyField) (healthy : HealthyField),
      reparseChecksum
          (OperationModeMessage.to_string_message mode ident squawk emergency healthy)
        = some (sum8 (operationModeBody mode ident squawk emergency healthy),
                sum8 (operationModeBody mode ident squawk emergency healthy))) ∧
    (∀ code : Nat, reparseChecksum (VfrCodeMessage.to_string_message code)
        = some (sum8 (vfrCodeBody code), sum8 (vfrCodeBody code))) := by
  refine ⟨fun s => ?_, fun cs => reparse_of_body _, fun m i sq e hl => reparse_of_body _,
    fun code => reparse_of_body _⟩
  exact ⟨_, _, rfl, hexDigitChar_isUpperHexDigit _ (by omega),
    hexDigitChar_isUpperHexDigit _ (Nat.mod_lt _ (by norm_num))⟩

end GDL90
